import Mathlib

/-!
Verification of the procedural-geometry generation and per-frame animation
code of the three scene variants in this repository:

* `Hero` — `src/components/AIHeroScene.tsx` (neural-chip variant:
  `MicroGreebles`, `NeuralChip`, `createCircuitGeo`, `NetworkLines`,
  `ParticleField`, `SceneLights`);
* `SphereA` — the first AI-core-sphere variant (`AICoreSphere` with 3 energy
  panels, 10 beams, `SceneLights`, `CameraDrift`, `ParticleField`);
* `SphereB` — the second AI-core-sphere variant (`AICoreSphere` with 4 energy
  panels, 15 beams).

All three files define the same seeded linear-congruential PRNG
(`seededRandom`); every procedurally placed value is derived from it.
JavaScript numbers are modelled exactly: the PRNG state is a natural number
(all intermediate products stay far below 2^53, where double-precision
integer arithmetic is exact), returned samples are rationals, and
time-dependent animation formulas that use `Math.sin` / `Math.cos` are
modelled over the reals with `Real.sin` / `Real.cos`.
-/

/-- One state-update step of the PRNG shared by all three scene variants:
`s = (s * 16807) % 2147483647`. -/
def prngStep (s : ℕ) : ℕ := (s * 16807) % 2147483647

/-- The value a single call of the closure returns, computed from the
already-updated state: `(s - 1) / 2147483646`. -/
def prngVal (s : ℕ) : ℚ := ((s : ℚ) - 1) / 2147483646

/-- The PRNG state after `n` calls, starting from `seed`. -/
def prngState (seed : ℕ) : ℕ → ℕ
  | 0 => seed
  | n + 1 => prngStep (prngState seed n)

/-- The value returned by the `n`-th call (0-indexed) of the closure
`seededRandom seed`. -/
def prngOut (seed n : ℕ) : ℚ := prngVal (prngState seed (n + 1))

/-- 2147483647 = 2^31 - 1 and 16807 = 7^5 share no factor. -/
theorem prng_coprime : Nat.Coprime 2147483647 16807 := by decide

/-- A PRNG state in `[1, 2147483646]` steps to a state in the same interval:
the modulus is coprime to the multiplier, so the product can never be a
multiple of the modulus. -/
theorem prngStep_valid {s : ℕ} (h1 : 1 ≤ s) (h2 : s < 2147483647) :
    1 ≤ prngStep s ∧ prngStep s < 2147483647 := by
  refine ⟨?_, Nat.mod_lt _ (by norm_num)⟩
  rcases Nat.eq_zero_or_pos (prngStep s) with h0 | h0
  · exfalso
    have hdvd : 2147483647 ∣ s * 16807 := Nat.dvd_of_mod_eq_zero h0
    have hs : 2147483647 ∣ s := prng_coprime.dvd_of_dvd_mul_right hdvd
    have := Nat.le_of_dvd (Nat.lt_of_lt_of_le Nat.zero_lt_one h1) hs
    omega
  · exact h0

/-- Every reachable PRNG state stays in `[1, 2147483646]` when the seed does. -/
theorem prngState_valid (seed : ℕ) (h1 : 1 ≤ seed) (h2 : seed < 2147483647) :
    ∀ n, 1 ≤ prngState seed n ∧ prngState seed n < 2147483647 := by
  intro n
  induction n with
  | zero => exact ⟨h1, h2⟩
  | succ n ih => exact prngStep_valid ih.1 ih.2

/-- A state in `[1, 2147483646]` yields a sample in `[0, 1)`. -/
theorem prngVal_range {s : ℕ} (h1 : 1 ≤ s) (h2 : s < 2147483647) :
    0 ≤ prngVal s ∧ prngVal s < 1 := by
  have hc1 : (1 : ℚ) ≤ (s : ℚ) := by exact_mod_cast h1
  have hc2 : (s : ℚ) < 2147483647 := by exact_mod_cast h2
  unfold prngVal
  constructor
  · apply div_nonneg (by linarith) (by norm_num)
  · rw [div_lt_one (by norm_num)]
    linarith

/-- C8: PRNG range and state invariant.  For every integer initial seed
`s0` with `0 < s0 < 2147483647` (which includes every seed the code uses),
every reachable state lies in `[1, 2147483646]`, every returned sample lies
in `[0, 1)`, and every intermediate product `s * 16807` stays below `2^53`,
so the JavaScript double-precision arithmetic the code performs is exact
integer arithmetic. -/
theorem prng_range_invariant (s0 : ℕ) (hpos : 0 < s0) (hlt : s0 < 2147483647) (n : ℕ) :
    (1 ≤ prngState s0 n ∧ prngState s0 n ≤ 2147483646) ∧
    (0 ≤ prngOut s0 n ∧ prngOut s0 n < 1) ∧
    prngState s0 n * 16807 < 2 ^ 53 := by
  obtain ⟨h1, h2⟩ := prngState_valid s0 hpos hlt n
  obtain ⟨g1, g2⟩ := prngState_valid s0 hpos hlt (n + 1)
  refine ⟨⟨h1, by omega⟩, prngVal_range g1 g2, ?_⟩
  calc prngState s0 n * 16807 ≤ 2147483646 * 16807 := by
        exact Nat.mul_le_mul_right _ (by omega)
    _ < 2 ^ 53 := by norm_num

/-- Witness for C8 at the concrete seed 42 after one call. -/
theorem prng_range_invariant_witness :
    (1 ≤ prngState 42 1 ∧ prngState 42 1 ≤ 2147483646) ∧
    (0 ≤ prngOut 42 1 ∧ prngOut 42 1 < 1) ∧
    prngState 42 1 * 16807 < 2 ^ 53 :=
  prng_range_invariant 42 (by decide) (by decide) 1

/-!  The three scene files each define their own `seededRandom`.  Each copy
below is transcribed from one file; `...Nth` is the state after the `n+1`-st
call of the returned closure and `...Val` the value that call returns. -/

namespace Hero

/-- PRNG closure of `src/components/AIHeroScene.tsx`:
state update `s = (s * 16807) % 2147483647`. -/
def seededRandomNth (seed : ℕ) : ℕ → ℕ
  | 0 => seed * 16807 % 2147483647
  | n + 1 => seededRandomNth seed n * 16807 % 2147483647

/-- Value returned by the `n`-th call: `(s - 1) / 2147483646`. -/
def seededRandomVal (seed n : ℕ) : ℚ :=
  ((seededRandomNth seed n : ℚ) - 1) / 2147483646

end Hero

namespace SphereA

/-- PRNG closure of the first AI-core-sphere variant:
state update `s = (s * 16807) % 2147483647`. -/
def seededRandomNth (seed : ℕ) : ℕ → ℕ
  | 0 => seed * 16807 % 2147483647
  | n + 1 => seededRandomNth seed n * 16807 % 2147483647

/-- Value returned by the `n`-th call: `(s - 1) / 2147483646`. -/
def seededRandomVal (seed n : ℕ) : ℚ :=
  ((seededRandomNth seed n : ℚ) - 1) / 2147483646

end SphereA

namespace SphereB

/-- PRNG closure of the second AI-core-sphere variant:
state update `s = (s * 16807) % 2147483647`. -/
def seededRandomNth (seed : ℕ) : ℕ → ℕ
  | 0 => seed * 16807 % 2147483647
  | n + 1 => seededRandomNth seed n * 16807 % 2147483647

/-- Value returned by the `n`-th call: `(s - 1) / 2147483646`. -/
def seededRandomVal (seed n : ℕ) : ℚ :=
  ((seededRandomNth seed n : ℚ) - 1) / 2147483646

end SphereB

/-- C5: the three independently defined seeded-RNG helpers are extensionally
equal: for every seed and every draw index `n`, the `n`-th value returned by
the `seededRandom` closure of each of the three scene variants is the same
(all three implement `s = (s * 16807) % 2147483647` and return
`(s - 1) / 2147483646`). -/
theorem seededRandom_variants_agree (seed n : ℕ) :
    Hero.seededRandomVal seed n = SphereA.seededRandomVal seed n ∧
    Hero.seededRandomVal seed n = SphereB.seededRandomVal seed n := by
  have hA : ∀ m, Hero.seededRandomNth seed m = SphereA.seededRandomNth seed m := by
    intro m
    induction m with
    | zero => rfl
    | succ m ih =>
      simp only [Hero.seededRandomNth, SphereA.seededRandomNth, ih]
  have hB : ∀ m, Hero.seededRandomNth seed m = SphereB.seededRandomNth seed m := by
    intro m
    induction m with
    | zero => rfl
    | succ m ih =>
      simp only [Hero.seededRandomNth, SphereB.seededRandomNth, ih]
  constructor
  · simp only [Hero.seededRandomVal, SphereA.seededRandomVal, hA]
  · simp only [Hero.seededRandomVal, SphereB.seededRandomVal, hB]

/-!  Face and vertex-buffer index computations shared by the two sphere
variants.  `IcosahedronGeometry(2.0, 1)` is non-indexed: its position buffer
holds three vertices per face, `totalFaces = position.count / 3`. -/

/-- Face index drawn by the panel-selection loop:
`Math.floor(rand() * totalFaces)`. -/
def faceIndex (r : ℚ) (totalFaces : ℕ) : ℕ := (⌊r * (totalFaces : ℚ)⌋).toNat

/-- Vertex index drawn by the beam builder: `Math.floor(rand() * pos.count)`. -/
def beamIndex (r : ℚ) (posCount : ℕ) : ℕ := (⌊r * (posCount : ℚ)⌋).toNat

/-- A sample in `[0, 1)` scaled by `n` and floored lands strictly below `n`. -/
theorem floor_scale_lt {r : ℚ} (n : ℕ) (h1 : r < 1) (hn : 0 < n) :
    (⌊r * (n : ℚ)⌋).toNat < n := by
  have hcast : (0 : ℚ) < (n : ℚ) := by exact_mod_cast hn
  have hlt : r * (n : ℚ) < (n : ℚ) := by
    calc r * (n : ℚ) < 1 * (n : ℚ) := by exact mul_lt_mul_of_pos_right h1 hcast
      _ = (n : ℚ) := one_mul _
  have hfloor : ⌊r * (n : ℚ)⌋ < (n : ℤ) := by
    apply Int.floor_lt.mpr
    exact_mod_cast hlt
  omega

/-- The panel-selection `while` loop, unrolled with explicit fuel.  The
JavaScript loop repeatedly draws `Math.floor(rand() * totalFaces)` into a
`Set` until the set holds `target` distinct faces; the `Set` is modelled as
its insertion-ordered list of distinct elements.  A `some` result with the
given fuel means the unbounded loop terminates after at most that many
draws. -/
def selectFacesAux (totalFaces target : ℕ) : ℕ → ℕ → List ℕ → Option (List ℕ)
  | 0, _, acc => if acc.length < target then none else some acc
  | fuel + 1, s, acc =>
    if acc.length < target then
      selectFacesAux totalFaces target fuel (prngStep s)
        (if faceIndex (prngVal (prngStep s)) totalFaces ∈ acc then acc
         else acc ++ [faceIndex (prngVal (prngStep s)) totalFaces])
    else some acc

/-- For a state `s ≥ 1` the rational floor computation of a face draw is the
natural-number division `(s - 1) * totalFaces / 2147483646`; this lets the
kernel evaluate concrete runs of the selection loop. -/
theorem faceIndex_prngVal_eq (s totalFaces : ℕ) (h : 1 ≤ s) :
    faceIndex (prngVal s) totalFaces = (s - 1) * totalFaces / 2147483646 := by
  unfold faceIndex prngVal
  have hcast : ((s : ℚ) - 1) = ((s - 1 : ℕ) : ℚ) := by
    push_cast [h]
    ring
  rw [hcast, div_mul_eq_mul_div, ← Nat.cast_mul]
  rw [show ((2147483646 : ℚ)) = ((2147483646 : ℕ) : ℚ) from by norm_num]
  rw [Rat.floor_natCast_div_natCast, ← Int.natCast_div]
  exact Int.toNat_natCast _

/-- The selection loop with the face draw already reduced to natural-number
arithmetic (kernel-evaluable twin of `selectFacesAux`). -/
def selectFacesNat (totalFaces target : ℕ) : ℕ → ℕ → List ℕ → Option (List ℕ)
  | 0, _, acc => if acc.length < target then none else some acc
  | fuel + 1, s, acc =>
    if acc.length < target then
      selectFacesNat totalFaces target fuel (prngStep s)
        (if (prngStep s - 1) * totalFaces / 2147483646 ∈ acc then acc
         else acc ++ [(prngStep s - 1) * totalFaces / 2147483646])
    else some acc

/-- On valid states the loop and its natural-number twin agree. -/
theorem selectFacesAux_eq_nat (totalFaces target : ℕ) :
    ∀ fuel s acc, 1 ≤ s → s < 2147483647 →
      selectFacesAux totalFaces target fuel s acc =
      selectFacesNat totalFaces target fuel s acc := by
  intro fuel
  induction fuel with
  | zero => intro s acc _ _; rfl
  | succ fuel ih =>
    intro s acc h1 h2
    obtain ⟨g1, g2⟩ := prngStep_valid h1 h2
    simp only [selectFacesAux, selectFacesNat, faceIndex_prngVal_eq _ totalFaces g1]
    by_cases hc : acc.length < target
    · simp only [hc, if_true]
      exact ih (prngStep s) _ g1 g2
    · simp only [hc, if_false]

/-- C2: geometry construction terminates.  The panel-selection loop drawing
face indices `Math.floor(rand() * totalFaces)` until the set holds 3 distinct
faces (seed 77, first sphere variant) respectively 4 distinct faces
(seed 123, second sphere variant) out of the icosahedron's 80 faces halts
after finitely many draws — here already within 5 draws — so the one-time
geometry construction completes. -/
theorem panel_selection_terminates :
    (∃ fuel l, selectFacesAux 80 3 fuel 77 [] = some l ∧ l.length = 3 ∧ l.Nodup) ∧
    (∃ fuel l, selectFacesAux 80 4 fuel 123 [] = some l ∧ l.length = 4 ∧ l.Nodup) := by
  constructor
  · refine ⟨5, [0, 10, 14], ?_, by decide, by decide⟩
    rw [selectFacesAux_eq_nat 80 3 5 77 [] (by decide) (by decide)]
    decide
  · refine ⟨5, [0, 14, 75, 33], ?_, by decide, by decide⟩
    rw [selectFacesAux_eq_nat 80 4 5 123 [] (by decide) (by decide)]
    decide

/-- All three components of an RGB triple lie in `[0, 1]`. -/
def unitTriple (c : ℚ × ℚ × ℚ) : Prop :=
  0 ≤ c.1 ∧ c.1 ≤ 1 ∧ 0 ≤ c.2.1 ∧ c.2.1 ≤ 1 ∧ 0 ≤ c.2.2 ∧ c.2.2 ≤ 1

namespace SphereA

/-- Edge vertex color written for a brightness sample `b` (first sphere
variant, seed 42). -/
def edgeColor (b : ℚ) : ℚ × ℚ × ℚ :=
  if b > 0.75 then (0.15, 1.0, 0.85)
  else if b > 0.4 then (0.05, 0.6 + b * 0.3, 0.5 + b * 0.2)
  else (0.02, 0.25 + b * 0.2, 0.22 + b * 0.15)

/-- The edge-geometry vertex colors: one `b = rand()` draw per vertex,
PRNG state threaded through `n` vertices. -/
def edgeColors (s : ℕ) : ℕ → List (ℚ × ℚ × ℚ)
  | 0 => []
  | n + 1 => edgeColor (prngVal (prngStep s)) :: edgeColors (prngStep s) n

/-- Each color triple built from a sample in `[0, 1)` stays inside `[0, 1]`. -/
theorem edgeColor_unit {b : ℚ} (h0 : 0 ≤ b) (h1 : b < 1) :
    unitTriple (edgeColor b) := by
  unfold unitTriple edgeColor
  split_ifs with hA hB <;>
    exact ⟨by norm_num, by norm_num, by nlinarith, by nlinarith, by nlinarith, by nlinarith⟩

/-- Every generated edge color of the first sphere variant is in `[0, 1]`. -/
theorem edgeColors_unit :
    ∀ n s, 1 ≤ s → s < 2147483647 → ∀ c ∈ edgeColors s n, unitTriple c := by
  intro n
  induction n with
  | zero => intro s _ _ c hc; simp [edgeColors] at hc
  | succ n ih =>
    intro s h1 h2 c hc
    obtain ⟨g1, g2⟩ := prngStep_valid h1 h2
    simp only [edgeColors, List.mem_cons] at hc
    rcases hc with h | h
    · subst h
      exact edgeColor_unit (prngVal_range g1 g2).1 (prngVal_range g1 g2).2
    · exact ih (prngStep s) g1 g2 c h

end SphereA

namespace SphereB

/-- Edge vertex color written for a brightness sample `b` (second sphere
variant, cyan/teal palette, seed 42). -/
def edgeColor (b : ℚ) : ℚ × ℚ × ℚ :=
  if b > 0.8 then (0.4, 1.0, 1.0)
  else if b > 0.4 then (0.0, 0.8, 0.8)
  else (0.0, 0.3, 0.3)

/-- The edge-geometry vertex colors of the second sphere variant. -/
def edgeColors (s : ℕ) : ℕ → List (ℚ × ℚ × ℚ)
  | 0 => []
  | n + 1 => edgeColor (prngVal (prngStep s)) :: edgeColors (prngStep s) n

/-- Each color triple of the cyan/teal palette stays inside `[0, 1]`. -/
theorem edgeColorB_unit (b : ℚ) : unitTriple (edgeColor b) := by
  unfold unitTriple edgeColor
  split_ifs <;> norm_num

/-- Every generated edge color of the second sphere variant is in `[0, 1]`. -/
theorem edgeColorsB_unit :
    ∀ n s, ∀ c ∈ edgeColors s n, unitTriple c := by
  intro n
  induction n with
  | zero => intro s c hc; simp [edgeColors] at hc
  | succ n ih =>
    intro s c hc
    simp only [edgeColors, List.mem_cons] at hc
    rcases hc with h | h
    · subst h
      exact edgeColorB_unit _
    · exact ih (prngStep s) c h

end SphereB

/-!  Per-frame animation callbacks.  Each `frameUpdate` mirrors the variant's
`useFrame` callbacks: every animated quantity is overwritten with a value
computed from the current elapsed time `t` alone.  The state record holds
exactly the quantities those callbacks write. -/

namespace SphereA

/-- Inner-glow material opacity the frame callback writes:
`0.06 + Math.sin(t * 0.8) * 0.02`. -/
noncomputable def innerGlowOpacity (t : ℝ) : ℝ := 0.06 + Real.sin (t * 0.8) * 0.02

/-- Beam `i` material opacity the frame callback writes:
`0.2 + Math.sin(t * 1.8 + i * 1.1) * 0.2`. -/
noncomputable def beamOpacity (t : ℝ) (i : ℕ) : ℝ :=
  0.2 + Real.sin (t * 1.8 + i * 1.1) * 0.2

/-- Quantities animated by the first sphere variant's `useFrame` callbacks
(`AICoreSphere`, `SceneLights`, `CameraDrift`, `ParticleField`). -/
structure AnimState where
  groupRotY : ℝ
  groupRotX : ℝ
  groupPosY : ℝ
  panelLightIntensity : ℝ
  innerGlowOp : ℝ
  beamOps : ℕ → ℝ
  rimIntensity : ℝ
  keyIntensity : ℝ
  camX : ℝ
  camY : ℝ
  camZ : ℝ
  particleRotY : ℝ
  particleRotX : ℝ

/-- One run of all four `useFrame` callbacks at elapsed time `t`; the
previous state is never read. -/
noncomputable def frameUpdate (_prev : AnimState) (t : ℝ) : AnimState where
  groupRotY := t * 0.06
  groupRotX := Real.sin (t * 0.03) * 0.08
  groupPosY := Real.sin (t * 0.35) * 0.12
  panelLightIntensity := 4.0 + Real.sin (t * 1.2) * 1.5
  innerGlowOp := innerGlowOpacity t
  beamOps := fun i => beamOpacity t i
  rimIntensity := 1.8 + Real.sin (t * 0.6) * 0.4
  keyIntensity := 3.5 + Real.sin (t * 0.4) * 0.3
  camX := 0.3 + Real.sin (t * 0.12) * 0.25
  camY := 0.05 + Real.sin (t * 0.08) * 0.18
  camZ := 6.0 + Real.sin (t * 0.1) * 0.15
  particleRotY := t * 0.003
  particleRotX := t * 0.001

end SphereA

namespace SphereB

/-- Inner-glow material opacity the second sphere variant's frame callback
writes: `0.05 + Math.sin(t * 0.5) * 0.03`. -/
noncomputable def innerGlowOpacity (t : ℝ) : ℝ := 0.05 + Real.sin (t * 0.5) * 0.03

/-- Beam `i` material opacity the second sphere variant's frame callback
writes: `0.1 + Math.sin(t * 2.0 + i * 10.0) * 0.1 + Math.random() * 0.05`,
with `r` the `Math.random()` sample in `[0, 1)`. -/
noncomputable def beamOpacity (t : ℝ) (i : ℕ) (r : ℝ) : ℝ :=
  0.1 + Real.sin (t * 2.0 + i * 10.0) * 0.1 + r * 0.05

end SphereB

namespace Hero

/-- Quantities animated by the chip variant's `useFrame` callbacks
(`NeuralChip`, `SceneLights`, `ParticleField`). -/
structure AnimState where
  rotX : ℝ
  rotY : ℝ
  coreLightIntensity : ℝ
  movLightX : ℝ
  movLightZ : ℝ
  particleRotY : ℝ

/-- One run of the chip variant's `useFrame` callbacks at elapsed time `t`;
the previous state is never read. -/
noncomputable def frameUpdate (_prev : AnimState) (t : ℝ) : AnimState where
  rotX := Real.sin (t * 0.05) * 0.08
  rotY := Real.sin (t * 0.03) * 0.12
  coreLightIntensity := 8.0 + Real.sin (t * 1.5) * 2.0
  movLightX := Real.sin (t * 0.2) * 12
  movLightZ := Real.cos (t * 0.2) * 12
  particleRotY := t * 0.02

end Hero

/-- C3: valid floating-point ranges for color and opacity are an invariant.
Every vertex-color component generated for the edge geometries (seed 42 in
both sphere variants, any vertex count) lies in `[0, 1]`, and every material
opacity the per-frame animation callbacks write — inner-glow opacity
`0.06 + sin(0.8 t) * 0.02` and beam opacities `0.2 + sin(1.8 t + 1.1 i) * 0.2`
in the first sphere variant; inner-glow opacity `0.05 + sin(0.5 t) * 0.03`
and beam opacities `0.1 + sin(2 t + 10 i) * 0.1 + r * 0.05` with
`r ∈ [0, 1)` in the second — lies in `[0, 1]` for every elapsed time `t`. -/
theorem color_opacity_ranges :
    (∀ n, ∀ c ∈ SphereA.edgeColors 42 n, unitTriple c) ∧
    (∀ n, ∀ c ∈ SphereB.edgeColors 42 n, unitTriple c) ∧
    (∀ t : ℝ, 0 ≤ SphereA.innerGlowOpacity t ∧ SphereA.innerGlowOpacity t ≤ 1) ∧
    (∀ (t : ℝ) (i : ℕ), 0 ≤ SphereA.beamOpacity t i ∧ SphereA.beamOpacity t i ≤ 1) ∧
    (∀ t : ℝ, 0 ≤ SphereB.innerGlowOpacity t ∧ SphereB.innerGlowOpacity t ≤ 1) ∧
    (∀ (t : ℝ) (i : ℕ) (r : ℝ), 0 ≤ r → r < 1 →
      0 ≤ SphereB.beamOpacity t i r ∧ SphereB.beamOpacity t i r ≤ 1) := by
  refine ⟨fun n => SphereA.edgeColors_unit n 42 (by norm_num) (by norm_num),
    fun n => SphereB.edgeColorsB_unit n 42, ?_, ?_, ?_, ?_⟩
  · intro t
    have hs1 := Real.neg_one_le_sin (t * 0.8)
    have hs2 := Real.sin_le_one (t * 0.8)
    unfold SphereA.innerGlowOpacity
    constructor <;> nlinarith
  · intro t i
    have hs1 := Real.neg_one_le_sin (t * 1.8 + i * 1.1)
    have hs2 := Real.sin_le_one (t * 1.8 + i * 1.1)
    unfold SphereA.beamOpacity
    constructor <;> nlinarith
  · intro t
    have hs1 := Real.neg_one_le_sin (t * 0.5)
    have hs2 := Real.sin_le_one (t * 0.5)
    unfold SphereB.innerGlowOpacity
    constructor <;> nlinarith
  · intro t i r h0 h1
    have hs1 := Real.neg_one_le_sin (t * 2.0 + i * 10.0)
    have hs2 := Real.sin_le_one (t * 2.0 + i * 10.0)
    unfold SphereB.beamOpacity
    constructor <;> nlinarith

/-- C6: frame-history independence of animation state.  For the first sphere
variant's callbacks (`AICoreSphere`, `SceneLights`, `CameraDrift`,
`ParticleField`) and the chip variant's callbacks, every per-frame update
assigns each animated quantity as an absolute function of the current
elapsed time `t`, so running the callbacks at any sequence of times
`t1, ..., tn, t` leaves the same animation state as running them once at `t`
alone — from any starting state. -/
theorem frame_history_independence :
    (∀ (s1 s2 : SphereA.AnimState) (ts : List ℝ) (t : ℝ),
        List.foldl SphereA.frameUpdate s1 (ts ++ [t]) = SphereA.frameUpdate s2 t) ∧
    (∀ (s1 s2 : Hero.AnimState) (ts : List ℝ) (t : ℝ),
        List.foldl Hero.frameUpdate s1 (ts ++ [t]) = Hero.frameUpdate s2 t) := by
  constructor <;> (intro s1 s2 ts t; rw [List.foldl_append]; rfl)

/-- C7: per-frame numeric parameter updates satisfy their closed-form
postconditions.  At every elapsed time `t`, the chip variant's frame
callback sets the core light intensity to `8.0 + 2.0 * sin(1.5 t)`, which
lies in `[6, 10]`, and the group rotation to
`(sin(0.05 t) * 0.08, sin(0.03 t) * 0.12)`; the first sphere variant's
`SceneLights` callback sets the rim light intensity to
`1.8 + 0.4 * sin(0.6 t)`, in `[1.4, 2.2]`, and the key light intensity to
`3.5 + 0.3 * sin(0.4 t)`, in `[3.2, 3.8]`. -/
theorem frame_postconditions (sc : Hero.AnimState) (sa : SphereA.AnimState) (t : ℝ) :
    ((Hero.frameUpdate sc t).coreLightIntensity = 8.0 + 2.0 * Real.sin (1.5 * t) ∧
      6 ≤ (Hero.frameUpdate sc t).coreLightIntensity ∧
      (Hero.frameUpdate sc t).coreLightIntensity ≤ 10) ∧
    ((Hero.frameUpdate sc t).rotX = Real.sin (0.05 * t) * 0.08 ∧
      (Hero.frameUpdate sc t).rotY = Real.sin (0.03 * t) * 0.12) ∧
    ((SphereA.frameUpdate sa t).rimIntensity = 1.8 + 0.4 * Real.sin (0.6 * t) ∧
      1.4 ≤ (SphereA.frameUpdate sa t).rimIntensity ∧
      (SphereA.frameUpdate sa t).rimIntensity ≤ 2.2) ∧
    ((SphereA.frameUpdate sa t).keyIntensity = 3.5 + 0.3 * Real.sin (0.4 * t) ∧
      3.2 ≤ (SphereA.frameUpdate sa t).keyIntensity ∧
      (SphereA.frameUpdate sa t).keyIntensity ≤ 3.8) := by
  simp only [Hero.frameUpdate, SphereA.frameUpdate]
  have c1 := Real.neg_one_le_sin (t * 1.5)
  have c2 := Real.sin_le_one (t * 1.5)
  have r1 := Real.neg_one_le_sin (t * 0.6)
  have r2 := Real.sin_le_one (t * 0.6)
  have k1 := Real.neg_one_le_sin (t * 0.4)
  have k2 := Real.sin_le_one (t * 0.4)
  refine ⟨⟨by rw [mul_comm t 1.5]; ring, by nlinarith, by nlinarith⟩,
    ⟨by rw [mul_comm t 0.05], by rw [mul_comm t 0.03]⟩,
    ⟨by rw [mul_comm t 0.6]; ring, by nlinarith, by nlinarith⟩,
    ⟨by rw [mul_comm t 0.4]; ring, by nlinarith, by nlinarith⟩⟩

namespace Hero

/-- One placed `MicroGreebles` instance: position, scale, z-rotation. -/
structure Greeble where
  px : ℚ
  py : ℚ
  pz : ℚ
  sx : ℚ
  sy : ℚ
  sz : ℚ
  rotZ : ℝ

noncomputable instance : Inhabited Greeble := ⟨⟨0, 0, 0, 0, 0, 0, 0⟩⟩

/-- One iteration of the `MicroGreebles` placement loop at loop index `i`,
incoming PRNG state `s`.  The body draws four samples in evaluation order
(`x` parts, `y` parts, rotation), places a `w = 0.04`, `h = 0.08`,
`d = 0.02` box at `z = 0.08 + d/2`, and aligns it at 0 or 90 degrees. -/
noncomputable def greebleAt (i s : ℕ) : Greeble :=
  let s1 := prngStep s
  let s2 := prngStep s1
  let s3 := prngStep s2
  let s4 := prngStep s3
  let x : ℚ :=
    if i < 100 then (prngVal s1 - 0.5) * 2.8
    else (if prngVal s1 > 0.5 then 1 else -1) * (1.0 + prngVal s2 * 0.4)
  let y : ℚ :=
    if i < 100 then (if prngVal s2 > 0.5 then 1 else -1) * (1.0 + prngVal s3 * 0.4)
    else (prngVal s3 - 0.5) * 2.8
  { px := x, py := y, pz := 0.08 + 0.02 / 2
    sx := 0.04, sy := 0.08, sz := 0.02
    rotZ := if prngVal s4 > 0.5 then 0 else Real.pi / 2 }

/-- The placement loop from loop index `i`, state `s`, for `n` iterations;
each iteration consumes four PRNG draws. -/
noncomputable def greebleListAux : ℕ → ℕ → ℕ → List Greeble
  | _, _, 0 => []
  | i, s, n + 1 => greebleAt i s :: greebleListAux (i + 1) (prngState s 4) n

/-- The 200 greeble instances placed by `MicroGreebles` (seed 1337). -/
noncomputable def microGreebles : List Greeble := greebleListAux 0 1337 200

/-- The loop places exactly as many instances as it iterates. -/
theorem greebleListAux_length : ∀ n i s, (greebleListAux i s n).length = n := by
  intro n
  induction n with
  | zero => intro i s; rfl
  | succ n ih =>
    intro i s
    simp only [greebleListAux, List.length_cons, ih]

/-- A sign flip applied to `1 + m * 0.4` with `m ≥ 0` keeps magnitude `≥ 1`. -/
theorem one_le_abs_sign_mul {v m : ℚ} (hm : 0 ≤ m) :
    1 ≤ |(if v > 0.5 then (1 : ℚ) else -1) * (1.0 + m * 0.4)| := by
  split_ifs
  · rw [one_mul, abs_of_nonneg (by nlinarith)]
    nlinarith
  · rw [neg_one_mul, abs_neg, abs_of_nonneg (by nlinarith)]
    nlinarith

/-- A greeble placed from a valid PRNG state lies in the top/bottom rows
(`|y| ≥ 1`) for loop indices below 100 and in the side columns (`|x| ≥ 1`)
for the remaining indices. -/
theorem greebleAt_offAxis (i s : ℕ) (h1 : 1 ≤ s) (h2 : s < 2147483647) :
    (i < 100 → 1 ≤ |(greebleAt i s).py|) ∧ (100 ≤ i → 1 ≤ |(greebleAt i s).px|) := by
  obtain ⟨a1, a2⟩ := prngStep_valid h1 h2
  obtain ⟨b1, b2⟩ := prngStep_valid a1 a2
  obtain ⟨c1, c2⟩ := prngStep_valid b1 b2
  have hv2 := prngVal_range b1 b2
  have hv3 := prngVal_range c1 c2
  constructor
  · intro hi
    simp only [greebleAt, hi, if_true]
    exact one_le_abs_sign_mul hv3.1
  · intro hi
    have hi2 : ¬ i < 100 := by omega
    simp only [greebleAt, hi2, if_false]
    exact one_le_abs_sign_mul hv2.1

/-- Index-wise off-axis property of the whole placement loop. -/
theorem greebleListAux_offAxis :
    ∀ n i s, 1 ≤ s → s < 2147483647 → ∀ k, k < n →
      (i + k < 100 → 1 ≤ |((greebleListAux i s n).getD k default).py|) ∧
      (100 ≤ i + k → 1 ≤ |((greebleListAux i s n).getD k default).px|) := by
  intro n
  induction n with
  | zero => intro i s _ _ k hk; omega
  | succ n ih =>
    intro i s h1 h2 k hk
    match k with
    | 0 =>
      simp only [greebleListAux, List.getD_cons_zero, Nat.add_zero]
      exact greebleAt_offAxis i s h1 h2
    | k + 1 =>
      obtain ⟨v1, v2⟩ := prngState_valid s h1 h2 4
      simp only [greebleListAux, List.getD_cons_succ]
      have hrec := ih (i + 1) (prngState s 4) v1 v2 k (by omega)
      exact ⟨fun h => hrec.1 (by omega), fun h => hrec.2 (by omega)⟩

end Hero

/-- C10: greebles avoid the central core region.  Each of the 200
`MicroGreebles` instances is placed with `|y| ≥ 1.0` (the first 100
instances) or `|x| ≥ 1.0` (the remaining 100), so no greeble lies inside
the open square `|x| < 1` and `|y| < 1` that holds the core assembly, and
after placement the instanced mesh's count equals 200. -/
theorem greebles_avoid_core :
    Hero.microGreebles.length = 200 ∧
    (∀ k, k < 200 →
      (k < 100 → 1 ≤ |(Hero.microGreebles.getD k default).py|) ∧
      (100 ≤ k → 1 ≤ |(Hero.microGreebles.getD k default).px|)) ∧
    (∀ g ∈ Hero.microGreebles, ¬ (|g.px| < 1 ∧ |g.py| < 1)) := by
  have hlen : Hero.microGreebles.length = 200 := Hero.greebleListAux_length 200 0 1337
  have hidx := fun k hk =>
    Hero.greebleListAux_offAxis 200 0 1337 (by norm_num) (by norm_num) k hk
  refine ⟨hlen, fun k hk => by simpa using hidx k hk, ?_⟩
  intro g hg
  obtain ⟨k, hget⟩ := List.mem_iff_get.mp hg
  have hk200 : (k : ℕ) < 200 := by
    have := k.isLt
    omega
  have hgd : Hero.microGreebles.getD (k : ℕ) default = g := by
    rw [List.getD_eq_getElem _ _ (by omega), ← hget]
    simp [List.get_eq_getElem]
  have hspec := hidx (k : ℕ) hk200
  simp only [Nat.zero_add] at hspec
  have hmg : Hero.greebleListAux 0 1337 200 = Hero.microGreebles := rfl
  rcases Nat.lt_or_ge (k : ℕ) 100 with hcase | hcase
  · have hout := hspec.1 hcase
    rw [hmg, hgd] at hout
    intro hcontra
    linarith [hcontra.2]
  · have hout := hspec.2 hcase
    rw [hmg, hgd] at hout
    intro hcontra
    linarith [hcontra.1]

namespace Hero

/-- A three-component point as pushed into a line geometry. -/
structure V3 where
  x : ℚ
  y : ℚ
  z : ℚ

/-- JavaScript `Math.round`: round half towards positive infinity. -/
def jsRound (q : ℚ) : ℤ := ⌊q + 1 / 2⌋

/-- One trace of `createCircuitGeo`: a start point on the chip border
(chosen by `startEdge`), an end point near the center, and the orthogonal
turn point between them; returns the updated PRNG state and the four pushed
points `p1, p2, p2, p3`. -/
def circuitTrace (variance : ℚ) (s : ℕ) : ℕ × List V3 :=
  let s1 := prngStep s
  let startEdge := (⌊prngVal s1 * 4⌋).toNat
  let s2 := prngStep s1
  let offset : ℚ := (jsRound ((prngVal s2 - 0.5) * 2.8 * variance * 10) : ℚ) / 10
  let start : ℚ × ℚ :=
    if startEdge = 0 then (offset, 1.3)
    else if startEdge = 1 then (1.3, offset)
    else if startEdge = 2 then (offset, -1.3)
    else (-1.3, offset)
  let s3 := prngStep s2
  let endX : ℚ := (jsRound ((prngVal s3 - 0.5) * 0.8 * 10) : ℚ) / 10
  let s4 := prngStep s3
  let endY : ℚ := (jsRound ((prngVal s4 - 0.5) * 0.8 * 10) : ℚ) / 10
  (s4, [⟨start.1, start.2, 0⟩, ⟨start.1, endY, 0⟩, ⟨start.1, endY, 0⟩, ⟨endX, endY, 0⟩])

/-- The trace-generation loop of `createCircuitGeo`, threading the PRNG
state through `n` traces. -/
def circuitPointsAux (variance : ℚ) : ℕ → ℕ → List V3
  | _, 0 => []
  | s, n + 1 =>
    (circuitTrace variance s).2 ++ circuitPointsAux variance (circuitTrace variance s).1 n

/-- `createCircuitGeo(count, variance, seed)`: the point list of the
line-segments geometry. -/
def createCircuitGeo (count : ℕ) (variance : ℚ) (seed : ℕ) : List V3 :=
  circuitPointsAux variance seed count

/-- The point list decomposes into groups of four points
`(x1,y1,0), (x1,y2,0), (x1,y2,0), (x2,y2,0)`: two line segments per trace,
the first with constant `x` (border start to turn point, pushed as `p1, p2`),
the second with constant `y` (turn point to end point, pushed as `p2, p3`),
all in the `z = 0` plane. -/
def orthoTraces : List V3 → Prop
  | [] => True
  | p1 :: p2 :: p3 :: p4 :: rest =>
      p1.z = 0 ∧ p2.z = 0 ∧ p3.z = 0 ∧ p4.z = 0 ∧
      p1.x = p2.x ∧ p2 = p3 ∧ p3.y = p4.y ∧ orthoTraces rest
  | _ => False

/-- Every trace has the start/turn/end shape. -/
theorem circuitTrace_shape (variance : ℚ) (s : ℕ) :
    ∃ sx sy ex ey, (circuitTrace variance s).2 =
      [⟨sx, sy, 0⟩, ⟨sx, ey, 0⟩, ⟨sx, ey, 0⟩, ⟨ex, ey, 0⟩] :=
  ⟨_, _, _, _, rfl⟩

/-- Induction form of the circuit-structure property. -/
theorem circuitPointsAux_structure (variance : ℚ) :
    ∀ n s, (circuitPointsAux variance s n).length = 4 * n ∧
      orthoTraces (circuitPointsAux variance s n) := by
  intro n
  induction n with
  | zero => intro s; exact ⟨rfl, trivial⟩
  | succ n ih =>
    intro s
    obtain ⟨hlen, hortho⟩ := ih (circuitTrace variance s).1
    obtain ⟨sx, sy, ex, ey, hshape⟩ := circuitTrace_shape variance s
    constructor
    · simp only [circuitPointsAux, List.length_append, hlen, hshape]
      simp [List.length_cons]
      omega
    · simp only [circuitPointsAux, hshape, List.cons_append, List.nil_append]
      exact ⟨rfl, rfl, rfl, rfl, rfl, rfl, rfl, hortho⟩

end Hero

/-- C9: circuit traces are orthogonal polylines of fixed size.  For every
count, variance and seed, `createCircuitGeo` produces exactly `4 * count`
points, all with `z = 0`, forming per trace exactly two segments of which
the first has constant `x` (from the border start point to the turn point)
and the second has constant `y` (from the turn point to the end point). -/
theorem circuit_traces_structure (count : ℕ) (variance : ℚ) (seed : ℕ) :
    (Hero.createCircuitGeo count variance seed).length = 4 * count ∧
    Hero.orthoTraces (Hero.createCircuitGeo count variance seed) :=
  Hero.circuitPointsAux_structure variance count seed

/-- C4: geometry construction cannot fail on buffer access.  Every index
used to read or write a vertex buffer stays in bounds: the panel face index
`fi = Math.floor(rand() * totalFaces)` with `totalFaces = position.count / 3`
satisfies `fi * 3 + 2 < position.count` because `rand() < 1`; the beam
vertex index `Math.floor(rand() * position.count)` is `< position.count`;
and the greeble placement loop issues exactly the 200 `setMatrixAt` indices
`0 ... 199`, each below the declared instance count of 200 — so no
construction step needs error handling. -/
theorem buffer_indices_in_bounds :
    (∀ (posCount : ℕ) (r : ℚ), 3 ∣ posCount → 0 < posCount → 0 ≤ r → r < 1 →
        faceIndex r (posCount / 3) * 3 + 2 < posCount) ∧
    (∀ (posCount : ℕ) (r : ℚ), 0 < posCount → 0 ≤ r → r < 1 →
        beamIndex r posCount < posCount) ∧
    Hero.microGreebles.length = 200 := by
  refine ⟨?_, ?_, Hero.greebleListAux_length 200 0 1337⟩
  · intro posCount r h3 hpos h0 h1
    have hF : 0 < posCount / 3 := by omega
    have hlt : faceIndex r (posCount / 3) < posCount / 3 := floor_scale_lt _ h1 hF
    have hmul : posCount / 3 * 3 = posCount := Nat.div_mul_cancel h3
    omega
  · intro posCount r hpos h0 h1
    exact floor_scale_lt _ h1 hpos

/-- A point with real coordinates (geometry-buffer vertices). -/
structure Vec3R where
  x : ℝ
  y : ℝ
  z : ℝ

/-- A constructed energy-beam line: drawn vertex index, start and end
points, HSL hue and material opacity. -/
structure Beam where
  idx : ℕ
  startP : Vec3R
  stopP : Vec3R
  hue : ℚ
  opacity : ℚ

namespace SphereA

/-- One energy beam of the first sphere variant (seed 200): vertex `v` at a
drawn index of the icosahedron buffer, `start = v * 0.95`,
`end = v + normalize(v) * (3.0 + rand() * 4.0)`, hue `0.47 + rand() * 0.06`,
opacity `0.35 + rand() * 0.3`; returns the updated PRNG state as well. -/
noncomputable def beamObject (pos : ℕ → Vec3R) (posCount : ℕ) (s : ℕ) : ℕ × Beam :=
  let s1 := prngStep s
  let idx := beamIndex (prngVal s1) posCount
  let v := pos idx
  let len := Real.sqrt (v.x ^ 2 + v.y ^ 2 + v.z ^ 2)
  let s2 := prngStep s1
  let scale : ℝ := 3.0 + ((prngVal s2 : ℚ) : ℝ) * 4.0
  let s3 := prngStep s2
  let s4 := prngStep s3
  (s4,
    { idx := idx
      startP := ⟨v.x * 0.95, v.y * 0.95, v.z * 0.95⟩
      stopP := ⟨v.x + v.x / len * scale, v.y + v.y / len * scale, v.z + v.z / len * scale⟩
      hue := 0.47 + prngVal s3 * 0.06
      opacity := 0.35 + prngVal s4 * 0.3 })

/-- The 10-beam construction loop of the first sphere variant. -/
noncomputable def beamObjects (pos : ℕ → Vec3R) (posCount : ℕ) : ℕ → ℕ → List Beam
  | _, 0 => []
  | s, n + 1 =>
    (beamObject pos posCount s).2 :: beamObjects pos posCount (beamObject pos posCount s).1 n

end SphereA

namespace SphereB

/-- One energy beam of the second sphere variant (seed 200, longer beams):
`end = v + normalize(v) * (4.0 + rand() * 5.0)`, hue `0.5 + rand() * 0.1`,
opacity `0.1 + rand() * 0.4`. -/
noncomputable def beamObject (pos : ℕ → Vec3R) (posCount : ℕ) (s : ℕ) : ℕ × Beam :=
  let s1 := prngStep s
  let idx := beamIndex (prngVal s1) posCount
  let v := pos idx
  let len := Real.sqrt (v.x ^ 2 + v.y ^ 2 + v.z ^ 2)
  let s2 := prngStep s1
  let scale : ℝ := 4.0 + ((prngVal s2 : ℚ) : ℝ) * 5.0
  let s3 := prngStep s2
  let s4 := prngStep s3
  (s4,
    { idx := idx
      startP := ⟨v.x * 0.95, v.y * 0.95, v.z * 0.95⟩
      stopP := ⟨v.x + v.x / len * scale, v.y + v.y / len * scale, v.z + v.z / len * scale⟩
      hue := 0.5 + prngVal s3 * 0.1
      opacity := 0.1 + prngVal s4 * 0.4 })

/-- The 15-beam construction loop of the second sphere variant. -/
noncomputable def beamObjects (pos : ℕ → Vec3R) (posCount : ℕ) : ℕ → ℕ → List Beam
  | _, 0 => []
  | s, n + 1 =>
    (beamObject pos posCount s).2 :: beamObjects pos posCount (beamObject pos posCount s).1 n

end SphereB

namespace Hero

/-- One background network line (seed 555): a point on a radius-2 circle
with jittered `z`, extended radially by `4.0 + rand() * 6.0`. -/
noncomputable def networkLine (s : ℕ) : ℕ × (Vec3R × Vec3R) :=
  let s1 := prngStep s
  let angle : ℝ := ((prngVal s1 : ℚ) : ℝ) * Real.pi * 2
  let x := Real.cos angle * 2.0
  let y := Real.sin angle * 2.0
  let s2 := prngStep s1
  let z : ℝ := (((prngVal s2 : ℚ) : ℝ) - 0.5) * 0.2
  let s3 := prngStep s2
  let len : ℝ := 4.0 + ((prngVal s3 : ℚ) : ℝ) * 6.0
  let n := Real.sqrt (x ^ 2 + y ^ 2 + z ^ 2)
  (s3, (⟨x, y, z⟩, ⟨x + x / n * len, y + y / n * len, z + z / n * len⟩))

/-- The 40-line `NetworkLines` construction loop. -/
noncomputable def networkLines : ℕ → ℕ → List (Vec3R × Vec3R)
  | _, 0 => []
  | s, n + 1 => (networkLine s).2 :: networkLines (networkLine s).1 n

end Hero

/-- Particle positions of a `ParticleField`: three draws per particle,
scaled by the extents `fx, fy, fz` of the volumetric distribution. -/
def particlePositions (fx fy fz : ℚ) : ℕ → ℕ → List (ℚ × ℚ × ℚ)
  | _, 0 => []
  | s, n + 1 =>
    ((prngVal (prngStep s) - 0.5) * fx,
     (prngVal (prngStep (prngStep s)) - 0.5) * fy,
     (prngVal (prngStep (prngStep (prngStep s))) - 0.5) * fz) ::
    particlePositions fx fy fz (prngStep (prngStep (prngStep s))) n

/-- Every procedurally generated placement value of the three scenes,
assembled in one record. -/
structure ProcOutput where
  heroGreebles : List Hero.Greeble
  heroDenseCircuit : List Hero.V3
  heroActiveCircuit : List Hero.V3
  heroParticles : List (ℚ × ℚ × ℚ)
  heroNetworkLines : List (Vec3R × Vec3R)
  sphereAEdgeColors : List (ℚ × ℚ × ℚ)
  sphereAPanelFaces : ℕ → Option (List ℕ)
  sphereABeams : List Beam
  sphereAParticles : List (ℚ × ℚ × ℚ)
  sphereBEdgeColors : List (ℚ × ℚ × ℚ)
  sphereBPanelFaces : ℕ → Option (List ℕ)
  sphereBBeams : List Beam

/-- One execution of all one-time construction code.  `amb` is the ambient
`Math.random` entropy stream the environment offers during construction,
`pos` the icosahedron vertex buffer shared by the two sphere variants
(fixed library geometry), `posCount` its vertex count and `edgeCount` the
edge-geometry vertex count.  Every field is produced by the seeded PRNG at
its fixed literal seed; the ambient stream is never consulted.  The panel
selections are recorded as functions of the loop fuel
(`panel_selection_terminates` shows the loop halts). -/
noncomputable def runConstruction (_amb : ℕ → ℚ) (pos : ℕ → Vec3R)
    (posCount edgeCount : ℕ) : ProcOutput where
  heroGreebles := Hero.microGreebles
  heroDenseCircuit := Hero.createCircuitGeo 80 0.3 42
  heroActiveCircuit := Hero.createCircuitGeo 20 0.6 99
  heroParticles := particlePositions 30 20 15 999 400
  heroNetworkLines := Hero.networkLines 555 40
  sphereAEdgeColors := SphereA.edgeColors 42 edgeCount
  sphereAPanelFaces := fun fuel => selectFacesAux (posCount / 3) 3 fuel 77 []
  sphereABeams := SphereA.beamObjects pos posCount 200 10
  sphereAParticles := particlePositions 25 16 20 999 500
  sphereBEdgeColors := SphereB.edgeColors 42 edgeCount
  sphereBPanelFaces := fun fuel => selectFacesAux (posCount / 3) 4 fuel 123 []
  sphereBBeams := SphereB.beamObjects pos posCount 200 15

/-- C1: two-run determinism of procedural geometry generation.  Two
executions are modelled as two arbitrary ambient `Math.random` entropy
streams `amb1`, `amb2` offered to the construction code, with the fixed
icosahedron geometry shared.  Every procedurally generated placement value
— edge vertex colors, the selected glowing panel faces, beam start/end
points, greeble instance transforms, circuit-trace points, network lines
and particle positions — is identical across the two executions, because
each is computed from the seeded PRNG initialised with a fixed literal seed
(42, 77, 99, 123, 200, 555, 999, 1337) and no other input. -/
theorem proc_generation_deterministic (amb1 amb2 : ℕ → ℚ) (pos : ℕ → Vec3R)
    (posCount edgeCount : ℕ) :
    runConstruction amb1 pos posCount edgeCount =
    runConstruction amb2 pos posCount edgeCount := rfl
